import Mathlib

/-!
Verification development for the alumni-system acquisition pipeline
(backend/src/services and backend/src/models). Python code is shallowly
embedded: floats are modelled as rationals, Python `None`/missing values as
`Option`, raised-and-caught exceptions as `Option` results, and Python
truthiness is made explicit.
-/

namespace AlumniSystem

/-- Python truthiness of an optional string: `None` and `""` are falsy. -/
def pyTruthyStr : Option String → Bool
  | none => false
  | some s => !(s == "")

/-- Python truthiness of an optional integer: `None` and `0` are falsy. -/
def pyTruthyInt : Option Int → Bool
  | none => false
  | some n => !(n == 0)

/-- Python `a or b` on optional strings: yields `a` when truthy, else `b`. -/
def pyOrS (a b : Option String) : Option String :=
  if pyTruthyStr a then a else b

/-- Python `str.lower()` (ASCII lowering, as used on the ASCII data here). -/
def pyLower (s : String) : String := ⟨s.data.map Char.toLower⟩

/-- Python `str.strip()`: drop leading and trailing whitespace. -/
def pyStrip (s : String) : String :=
  ⟨((s.data.dropWhile Char.isWhitespace).reverse.dropWhile Char.isWhitespace).reverse⟩

/-- Python `needle in hay` substring containment on strings. -/
def strContains (hay needle : String) : Bool :=
  (List.range (hay.data.length + 1)).any (fun i => needle.data.isPrefixOf (hay.data.drop i))

/-- Python `str.split()` worker: split a character list on whitespace runs,
dropping empty segments (the second argument accumulates the current word,
reversed). -/
def wordsAux : List Char → List Char → List (List Char)
  | [], [] => []
  | [], acc => [acc.reverse]
  | c :: cs, acc =>
    if c.isWhitespace then
      if acc = [] then wordsAux cs [] else acc.reverse :: wordsAux cs []
    else wordsAux cs (c :: acc)

/-- Python `str.split()` with no arguments. -/
def pySplitWhitespace (s : String) : List String :=
  (wordsAux s.data []).map (fun l => ⟨l⟩)

/-- The token set `set(name.lower().split())` used by
`AIVerificationService.calculate_name_similarity`. -/
def nameTokens (s : String) : Finset String :=
  (pySplitWhitespace (pyLower s)).toFinset

/-- Model of `AIVerificationService.calculate_name_similarity`: the Jaccard index of
the lowercased whitespace-token sets of the two names, with early 0.0 returns
for falsy inputs and empty token sets. -/
def calculate_name_similarity (name1 name2 : String) : ℚ :=
  if name1 = "" ∨ name2 = "" then 0
  else
    let p1 := nameTokens name1
    let p2 := nameTokens name2
    if p1 = ∅ ∨ p2 = ∅ then 0
    else if p1 ∪ p2 = ∅ then 0
    else ((p1 ∩ p2).card : ℚ) / ((p1 ∪ p2).card : ℚ)

/-- Model of `AIVerificationService._normalize_confidence`: a numeric confidence in
0–100 or 0.0–1.0 is brought to 0.0–1.0; `None` maps to `0.0`. -/
def normalize_confidence : Option ℚ → ℚ
  | none => 0
  | some c => if 1 < c ∧ c ≤ 100 then c / 100 else c

/-- The `IndustryType` enum values of `models/alumni.py`. -/
def industryCategories : List String :=
  ["Technology", "Finance", "Healthcare", "Education", "Consulting", "Mining",
   "Government", "Non-Profit", "Retail", "Manufacturing", "Other"]

/-- The `industry_mapping` table of `AIVerificationService.normalize_industry`,
in insertion order (Python dicts preserve it, and the fallback scan relies on it). -/
def industry_mapping : List (String × String) :=
  [("technology", "Technology"), ("information technology", "Technology"),
   ("software", "Technology"), ("it", "Technology"), ("computer", "Technology"),
   ("tech", "Technology"), ("engineering", "Technology"), ("data", "Technology"),
   ("ai", "Technology"), ("artificial intelligence", "Technology"),
   ("finance", "Finance"), ("financial", "Finance"), ("banking", "Finance"),
   ("investment", "Finance"), ("accounting", "Finance"),
   ("healthcare", "Healthcare"), ("health", "Healthcare"), ("medical", "Healthcare"),
   ("pharmaceutical", "Healthcare"), ("biotech", "Healthcare"),
   ("education", "Education"), ("academic", "Education"), ("teaching", "Education"),
   ("university", "Education"), ("school", "Education"),
   ("consulting", "Consulting"), ("consultant", "Consulting"), ("advisory", "Consulting"),
   ("mining", "Mining"), ("resources", "Mining"), ("energy", "Mining"),
   ("government", "Government"), ("public sector", "Government"), ("military", "Government"),
   ("non-profit", "Non-Profit"), ("nonprofit", "Non-Profit"), ("charity", "Non-Profit"),
   ("ngo", "Non-Profit"),
   ("retail", "Retail"), ("sales", "Retail"), ("marketing", "Retail"),
   ("manufacturing", "Manufacturing"), ("production", "Manufacturing"),
   ("industrial", "Manufacturing")]

/-- Model of `AIVerificationService.normalize_industry`: falsy input maps to `None`;
otherwise exact table lookup on the stripped, lowered string, then substring
containment in either direction against every table key in order, then the
catch-all `"Other"`. -/
def normalize_industry (industry_str : Option String) : Option String :=
  if pyTruthyStr industry_str then
    let normalized := pyLower (pyStrip (industry_str.getD ""))
    match industry_mapping.find? (fun p => p.1 == normalized) with
    | some p => some p.2
    | none =>
      match industry_mapping.find?
          (fun p => strContains normalized p.1 || strContains p.1 normalized) with
      | some p => some p.2
      | none => some "Other"
  else none

/-- The fields of the scraped profile dictionary that
`AIVerificationService.basic_verification` reads (`.get` with default `""`). -/
structure ScrapedData where
  name : Option String := none
  location : Option String := none

/-- The result type of profile verification (the formatted `reason` string is
presentation only and is omitted). -/
structure VerificationResult where
  is_match : Bool
  confidence_score : ℚ

/-- The `australian_indicators` list of `basic_verification`. -/
def australian_indicators : List String :=
  ["australia", "perth", "sydney", "melbourne", "brisbane"]

/-- The location check of `basic_verification`: hint containment when both a
hint and a scraped location are truthy, else the Australian-indicator scan
when only the scraped location is truthy, else no match. -/
def basic_location_match (location_hint : Option String)
    (scraped_location : String) : Bool :=
  if pyTruthyStr location_hint && !(scraped_location == "") then
    strContains (pyLower scraped_location) (pyLower (location_hint.getD ""))
  else if !(scraped_location == "") then
    australian_indicators.any (fun ind => strContains (pyLower scraped_location) ind)
  else false

/-- Model of `AIVerificationService.basic_verification`: the AI-free fallback verifier.
`confidence = name_similarity * 0.7 (+ 0.3 when the location matches)`;
a match is declared when `confidence > 0.6` and `name_similarity > 0.5`. -/
def basic_verification (target_name : String) (scraped : ScrapedData)
    (_graduation_year : Option Int) (location_hint : Option String) :
    VerificationResult :=
  let scraped_name := scraped.name.getD ""
  let scraped_location := scraped.location.getD ""
  let name_similarity := calculate_name_similarity target_name scraped_name
  let location_match := basic_location_match location_hint scraped_location
  let confidence := name_similarity * (7/10) + (if location_match then 3/10 else 0)
  { is_match := decide (confidence > 3/5 ∧ name_similarity > 1/2)
    confidence_score := confidence }

/-- Model of `JobPosition` in `models/alumni.py`; the `date(year, 1, 1)`
values produced by the AI path are represented by their year. -/
structure Job where
  title : String
  company : String
  start_date : Option Int := none
  end_date : Option Int := none
  is_current : Bool := false
  industry : Option String := none
  location : Option String := none
deriving DecidableEq

/-- Model of the `JobPosition` constructor including `__post_init__`: a raised
`ValueError` is `none`. -/
def mkJobPosition (title company : String) (start_date end_date : Option Int)
    (is_current : Bool) (industry location : Option String) : Option Job :=
  if title = "" ∨ company = "" then none
  else if start_date.isSome ∧ end_date.isSome ∧ end_date.getD 0 < start_date.getD 0 then none
  else if is_current ∧ end_date.isSome then none
  else some { title, company, start_date, end_date, is_current, industry, location }

/-- Model of `Education` in `models/alumni.py`. -/
structure Edu where
  institution : String
  degree : Option String := none
  field_of_study : Option String := none
  graduation_year : Option Int := none
  start_year : Option Int := none
deriving DecidableEq

/-- Model of the `Education` constructor including `__post_init__`
(`currentYear` stands for `datetime.now().year`). -/
def mkEducation (institution : String) (degree field_of_study : Option String)
    (graduation_year start_year : Option Int) (currentYear : Int) : Option Edu :=
  if institution = "" then none
  else if pyTruthyInt graduation_year ∧ pyTruthyInt start_year ∧
      graduation_year.getD 0 < start_year.getD 0 then none
  else if pyTruthyInt graduation_year ∧
      ¬(1950 ≤ graduation_year.getD 0 ∧ graduation_year.getD 0 ≤ currentYear + 10) then none
  else some { institution, degree, field_of_study, graduation_year, start_year }

/-- Model of `DataSource` in `models/alumni.py` (`collection_date` omitted:
it is a wall-clock default never read by the pipeline). -/
structure DataSourceM where
  source_type : String
  source_url : Option String := none
  confidence_score : ℚ := 1
deriving DecidableEq

/-- The `valid_types` list of `DataSource.__post_init__`. -/
def validSourceTypes : List String :=
  ["linkedin", "web", "manual", "brightdata", "web-research"]

/-- Model of the `DataSource` constructor including `__post_init__`. -/
def mkDataSource (source_type : String) (source_url : Option String)
    (confidence_score : ℚ) : Option DataSourceM :=
  if source_type ∉ validSourceTypes then none
  else if ¬(0 ≤ confidence_score ∧ confidence_score ≤ 1) then none
  else some { source_type, source_url, confidence_score }

/-- Model of `AlumniProfile` in `models/alumni.py`. -/
structure AlumniProfileM where
  full_name : String
  id : Option Int := none
  graduation_year : Option Int := none
  current_position : Option Job := none
  work_history : List Job := []
  education_history : List Edu := []
  location : Option String := none
  industry : Option String := none
  linkedin_url : Option String := none
  confidence_score : ℚ := 1
  last_updated : Int := 0
  data_sources : List DataSourceM := []
deriving DecidableEq

/-- Model of the `AlumniProfile` constructor call made by
`convert_web_data_to_profile`, including `__post_init__` validation
(`currentYear` stands for `datetime.now().year`). -/
def mkAlumniProfile (full_name : String) (graduation_year : Option Int)
    (location industry linkedin_url : Option String) (confidence_score : ℚ)
    (data_sources : List DataSourceM) (currentYear : Int) : Option AlumniProfileM :=
  if full_name = "" ∨ (pyStrip full_name).length < 2 then none
  else if pyTruthyInt graduation_year ∧
      ¬(1950 ≤ graduation_year.getD 0 ∧ graduation_year.getD 0 ≤ currentYear + 5) then none
  else if ¬(0 ≤ confidence_score ∧ confidence_score ≤ 1) then none
  else some { full_name, graduation_year, location, industry, linkedin_url,
              confidence_score, data_sources }

/-- Sort key of `add_job_position`: `x.start_date or date.min` (year 1 is the
year of `date.min`). -/
def jobSortKey (j : Job) : Int := j.start_date.getD 1

/-- Stable descending insertion for `list.sort(key=..., reverse=True)`. -/
def insertJobDesc (j : Job) : List Job → List Job
  | [] => [j]
  | k :: ks => if jobSortKey k ≤ jobSortKey j then j :: k :: ks else k :: insertJobDesc j ks

/-- Stable descending sort of a work history by start date. -/
def sortJobsDesc : List Job → List Job
  | [] => []
  | j :: js => insertJobDesc j (sortJobsDesc js)

/-- Sort key of `add_education`: `x.graduation_year or 0`. -/
def eduSortKey (e : Edu) : Int := e.graduation_year.getD 0

/-- Stable descending insertion for the education sort. -/
def insertEduDesc (e : Edu) : List Edu → List Edu
  | [] => [e]
  | k :: ks => if eduSortKey k ≤ eduSortKey e then e :: k :: ks else k :: insertEduDesc e ks

/-- Stable descending sort of an education history by graduation year. -/
def sortEdusDesc : List Edu → List Edu
  | [] => []
  | e :: es => insertEduDesc e (sortEdusDesc es)

/-- Model of `AlumniProfile.add_job_position`: a current position clears the
`is_current` flag of every stored job and becomes the cached current
position; the job is appended and the history re-sorted (most recent first). -/
def add_job_position (p : AlumniProfileM) (position : Job) : AlumniProfileM :=
  let p1 := if position.is_current then
      { p with
        work_history := p.work_history.map (fun j => { j with is_current := false }),
        current_position := some position }
    else p
  { p1 with work_history := sortJobsDesc (p1.work_history ++ [position]) }

/-- Model of `AlumniProfile.add_education`: append and re-sort by graduation
year descending. -/
def add_education (p : AlumniProfileM) (e : Edu) : AlumniProfileM :=
  { p with education_history := sortEdusDesc (p.education_history ++ [e]) }

/-- Scalar-merge step of `UpdateService.update_single_profile` (the
`fresh or existing` coalescing of location, industry and linkedin_url, and
the unconditional `last_updated = datetime.now()`). -/
def update_scalar_fields (profile fresh : AlumniProfileM) (now : Int) :
    AlumniProfileM :=
  { profile with
    location := pyOrS fresh.location profile.location
    industry := pyOrS fresh.industry profile.industry
    linkedin_url := pyOrS fresh.linkedin_url profile.linkedin_url
    last_updated := now }

/-- Model of the in-memory merge of `UpdateService.update_single_profile`:
scalar coalescing, wholesale work-history replacement (with current-position
recompute) when the candidate has one, and `max` on the confidence score. -/
def update_single_profile_merge (profile fresh : AlumniProfileM) (now : Int) :
    AlumniProfileM :=
  let p1 := update_scalar_fields profile fresh now
  let p2 := if fresh.work_history ≠ [] then
      { p1 with
        work_history := fresh.work_history
        current_position := if fresh.current_position.isSome
          then fresh.current_position else p1.current_position }
    else p1
  { p2 with confidence_score := max p2.confidence_score fresh.confidence_score }

/-- Number of `is_current` entries in a work history. -/
def currentCount (l : List Job) : Nat := (l.filter (fun j => j.is_current)).length

/-- The work-history invariant of C3: at most one entry is current, and a
current entry is the cached current position. -/
def work_history_inv (p : AlumniProfileM) : Prop :=
  currentCount p.work_history ≤ 1 ∧
  ∀ j ∈ p.work_history, j.is_current = true → p.current_position = some j

instance (p : AlumniProfileM) : Decidable (work_history_inv p) := by
  unfold work_history_inv currentCount
  infer_instance

/-- The parsed-JSON fields that `convert_web_data_to_profile` reads from one
work-history entry (absent and null keys are both `none`). -/
structure JobData where
  title : Option String := none
  position : Option String := none
  company : Option String := none
  employer : Option String := none
  start_year : Option Int := none
  end_year : Option Int := none
  is_current : Option Bool := none
  industry : Option String := none
  location : Option String := none
deriving DecidableEq

/-- The parsed-JSON fields read from one education entry. -/
structure EduData where
  institution : Option String := none
  degree : Option String := none
  field_of_study : Option String := none
  graduation_year : Option Int := none
  start_year : Option Int := none
deriving DecidableEq

/-- The parsed-JSON object that `convert_web_data_to_profile` consumes
(`current_company` and `company` are read only as company fallbacks). -/
structure ProfileData where
  full_name : Option String := none
  graduation_year : Option Int := none
  location : Option String := none
  industry : Option String := none
  linkedin_url : Option String := none
  confidence_score : Option ℚ := none
  work_history : List JobData := []
  education_history : List EduData := []
  data_source_url : Option String := none
  current_company : Option String := none
  company : Option String := none
deriving DecidableEq

/-- The meaningful-keys check of `convert_web_data_to_profile`: at least one
of full_name, work_history, education_history, linkedin_url, location,
industry is non-empty. -/
def hasMeaningful (pd : ProfileData) : Bool :=
  pyTruthyStr pd.full_name || !pd.work_history.isEmpty ||
    !pd.education_history.isEmpty || pyTruthyStr pd.linkedin_url ||
    pyTruthyStr pd.location || pyTruthyStr pd.industry

/-- Model of the guarded `date(int(year), 1, 1)` conversion: a falsy year is
skipped and a year outside `date`'s range raises and is caught, both leaving
`None`; the date is represented by its year. -/
def yearToDate (y : Option Int) : Option Int :=
  match y with
  | none => none
  | some v => if 1 ≤ v ∧ v ≤ 9999 then some v else none

/-- One work-history entry of `convert_web_data_to_profile`: `none` means the
entry is skipped (missing title, or a `JobPosition` constructor error caught
by the per-entry handler). -/
def buildJobEntry (pd : ProfileData) (jd : JobData) : Option Job :=
  let start_date := yearToDate jd.start_year
  let end_date := yearToDate jd.end_year
  let title_val := pyOrS jd.title jd.position
  let company_val0 := pyOrS jd.company jd.employer
  let company_val := if pyTruthyStr company_val0 then company_val0
    else pyOrS (pyOrS pd.current_company pd.company) (some "Unknown")
  if ¬ pyTruthyStr title_val then none
  else mkJobPosition (title_val.getD "") (company_val.getD "") start_date end_date
    (jd.is_current.getD false) (normalize_industry jd.industry) jd.location

/-- One education entry of `convert_web_data_to_profile`: `none` means the
entry is skipped (an `Education` constructor error caught per entry). -/
def buildEduEntry (currentYear : Int) (ed : EduData) : Option Edu :=
  mkEducation (ed.institution.getD "") ed.degree ed.field_of_study
    ed.graduation_year ed.start_year currentYear

/-- The data-source construction of `convert_web_data_to_profile`: one
`web-research` source when a source URL is truthy; a `DataSource` constructor
error escapes to the outer handler (`none` here). -/
def buildDataSources (pd : ProfileData) (confidence : ℚ) :
    Option (List DataSourceM) :=
  if pyTruthyStr pd.data_source_url then
    (mkDataSource "web-research" pd.data_source_url confidence).map (fun ds => [ds])
  else some []

/-- The industry selection of `convert_web_data_to_profile`: the current
job's industry when truthy, else the normalized profile-level industry when
truthy, else null. -/
def chooseIndustry (current_job : Option Job) (pd : ProfileData) : Option String :=
  match current_job with
  | some j =>
    if pyTruthyStr j.industry then j.industry
    else if pyTruthyStr pd.industry then normalize_industry pd.industry
    else none
  | none =>
    if pyTruthyStr pd.industry then normalize_industry pd.industry
    else none

/-- The profile-construction tail of `convert_web_data_to_profile` (after the
meaningful-keys, confidence and full_name guards): build the per-entry lists,
the data sources, the `AlumniProfile`, then add jobs and educations; any
constructor error at the profile level yields `none` via the outer handler. -/
def convertCore (currentYear : Int) (target_name : String) (pd : ProfileData) :
    Option AlumniProfileM :=
  let confidence := normalize_confidence pd.confidence_score
  let jobs := pd.work_history.filterMap (buildJobEntry pd)
  let current_job := jobs.foldl (fun acc j => if j.is_current then some j else acc) none
  let edus := pd.education_history.filterMap (buildEduEntry currentYear)
  (buildDataSources pd confidence).bind (fun data_sources =>
    (mkAlumniProfile (pd.full_name.getD target_name) pd.graduation_year
        pd.location (chooseIndustry current_job pd) pd.linkedin_url confidence
        data_sources currentYear).map
      (fun base => edus.foldl add_education (jobs.foldl add_job_position base)))

/-- Model of `AIVerificationService.convert_web_data_to_profile`:
`clientAvailable` is the OpenAI-client check, `parsed` is the response after
JSON parsing (`none` for a parse failure or a non-object response), and all
raised-and-caught errors surface as `none` — the function never raises. -/
def convert_web_data_to_profile (clientAvailable : Bool) (currentYear : Int)
    (target_name : String) (parsed : Option ProfileData) : Option AlumniProfileM :=
  if ¬ clientAvailable then none
  else match parsed with
  | none => none
  | some pd =>
    if ¬ hasMeaningful pd then none
    else if normalize_confidence pd.confidence_score < 1/2 then none
    else if ¬ pyTruthyStr pd.full_name then none
    else convertCore currentYear target_name pd

/-- A concrete parsed result with a 1-character full name and confidence
0.9, used to probe the discard semantics. -/
def pdShortName : ProfileData :=
  { full_name := some "X", confidence_score := some (9/10) }

/-- Per-name outcome of the web-research pipeline for one name, as observed
by the loop body of `AlumniCollector.collect_web_research`: no web results,
AI conversion returned nothing, the profile was saved, or an exception was
raised and caught by the per-name handler. -/
inductive NameOutcome
  | noWebResults
  | conversionFailed
  | saved (p : AlumniProfileM)
  | raisedError
deriving DecidableEq

/-- Model of `AlumniCollector.collect_web_research`: iterate the batch,
skip every failing name with `continue`, and return only the list of saved
profiles — the loop records no failure entries of any kind. -/
def collect_web_research (names : List String)
    (outcome : String → NameOutcome) : List AlumniProfileM :=
  names.filterMap (fun n =>
    match outcome n with
    | .saved p => some p
    | _ => none)

/-- The batch-result object that the caller `run_collection_task` in
`api/collection.py` reads from `collect_alumni`
(`result.get("successful_profiles")` and `result.get("failed_names")`). -/
structure BatchResult where
  successful_profiles : List AlumniProfileM
  failed_names : List String

/-- A concrete accepted profile for the end-to-end batch example. -/
def janeProfile : AlumniProfileM := { full_name := "Jane Smith" }

/-- The re-acquisition priority tiers of `UpdateService.schedule_updates`. -/
inductive UpdateTier
  | immediate
  | should
  | can
  | fresh
deriving DecidableEq

/-- The per-profile classification performed by
`UpdateService.schedule_updates` on `days_old = (now - last_updated).days`
and `confidence_score`, with the code's if/elif rule order. -/
def schedule_updates_tier (days_old : Int) (confidence_score : ℚ) : UpdateTier :=
  if 90 < days_old ∨ confidence_score < 3/10 then .immediate
  else if 30 < days_old ∨ confidence_score < 3/5 then .should
  else if 7 < days_old then .can
  else .fresh

end AlumniSystem

namespace AlumniSystem

/-- Every value stored in the industry mapping table is a canonical category. -/
theorem industry_mapping_values_canonical :
    ∀ p ∈ industry_mapping, p.2 ∈ industryCategories := by decide

/-- C2: confidence normalization coerces a 0–100 scale value `c` with
`1 < c ≤ 100` to `c / 100` and leaves a value already in `[0, 1]` unchanged. -/
theorem normalize_confidence_spec (c : ℚ) :
    (1 < c → c ≤ 100 → normalize_confidence (some c) = c / 100) ∧
    (0 ≤ c → c ≤ 1 → normalize_confidence (some c) = c) := by
  constructor
  · intro h1 h2
    simp [normalize_confidence, h1, h2]
  · intro _ h2
    have : ¬ (1 < c ∧ c ≤ 100) := by
      rintro ⟨h1, _⟩; exact absurd h2 (not_le.mpr h1)
    simp [normalize_confidence, this]

/-- Witness for C2 at the concrete inputs 80 and 1/2. -/
theorem normalize_confidence_spec_witness :
    normalize_confidence (some 80) = 80 / 100 ∧
    normalize_confidence (some (1/2)) = 1/2 :=
  ⟨(normalize_confidence_spec 80).1 (by norm_num) (by norm_num),
   (normalize_confidence_spec (1/2)).2 (by norm_num) (by norm_num)⟩

/-- C5: the Taxonomy Normalizer is total on non-empty strings — it always
returns exactly one category of the closed set (defaulting to "Other" after
the substring-containment fallback) — it returns `none` for null or empty
input, and normalizing an already-canonical category name returns that same
category. -/
theorem normalize_industry_total :
    normalize_industry none = none ∧
    normalize_industry (some "") = none ∧
    (∀ s : String, s ≠ "" →
      ∃ c ∈ industryCategories, normalize_industry (some s) = some c) ∧
    (∀ c ∈ industryCategories, normalize_industry (some c) = some c) := by
  refine ⟨rfl, rfl, ?_, by decide⟩
  intro s hs
  have ht : pyTruthyStr (some s) = true := by
    simp [pyTruthyStr]
    exact hs
  simp only [normalize_industry, ht, if_true, Option.getD_some]
  rcases h1 : industry_mapping.find? (fun p => p.1 == pyLower (pyStrip s)) with _ | p
  · rcases h2 : industry_mapping.find?
        (fun p => strContains (pyLower (pyStrip s)) p.1 ||
          strContains p.1 (pyLower (pyStrip s))) with _ | p
    · exact ⟨"Other", by decide, by simp [h1, h2]⟩
    · exact ⟨p.2, industry_mapping_values_canonical p (List.mem_of_find?_eq_some h2),
        by simp [h1, h2]⟩
  · exact ⟨p.2, industry_mapping_values_canonical p (List.mem_of_find?_eq_some h1),
      by simp [h1]⟩

/-- Witness for C5 at a non-table string and at the canonical name
"Technology". -/
theorem normalize_industry_total_witness :
    (∃ c ∈ industryCategories, normalize_industry (some "zookeeping") = some c) ∧
    normalize_industry (some "Technology") = some "Technology" :=
  ⟨normalize_industry_total.2.2.1 "zookeeping" (by decide),
   normalize_industry_total.2.2.2 "Technology" (by decide)⟩

/-- Helper: a Jaccard ratio of finite sets equals 1 exactly when the sets are
equal, provided the left set is non-empty. -/
theorem jaccard_eq_one_iff {α : Type} [DecidableEq α] (s t : Finset α)
    (hs : s.Nonempty) :
    ((s ∩ t).card : ℚ) / ((s ∪ t).card : ℚ) = 1 ↔ s = t := by
  have hu : (s ∪ t).Nonempty := hs.mono Finset.subset_union_left
  have hc : 0 < (s ∪ t).card := Finset.card_pos.mpr hu
  have hc' : (((s ∪ t).card : ℚ)) ≠ 0 := Nat.cast_ne_zero.mpr hc.ne'
  rw [div_eq_one_iff_eq hc']
  constructor
  · intro h
    have hcardeq : (s ∩ t).card = (s ∪ t).card := Nat.cast_inj.mp h
    have hiu : s ∩ t = s ∪ t :=
      Finset.eq_of_subset_of_card_le Finset.inter_subset_union hcardeq.symm.le
    apply Finset.Subset.antisymm
    · intro x hx
      have hx' : x ∈ s ∩ t := hiu ▸ Finset.mem_union_left t hx
      exact (Finset.mem_inter.mp hx').2
    · intro x hx
      have hx' : x ∈ s ∩ t := hiu ▸ Finset.mem_union_right s hx
      exact (Finset.mem_inter.mp hx').1
  · rintro rfl
    rw [Finset.inter_self, Finset.union_self]

/-- Helper: the token set of the empty string is empty. -/
theorem nameTokens_empty : nameTokens "" = ∅ := rfl

/-- Helper: in the branch where both names and both token sets are non-empty,
the similarity is the Jaccard ratio of the token sets. -/
theorem calculate_name_similarity_eq_jaccard (name1 name2 : String)
    (h1 : name1 ≠ "") (h2 : name2 ≠ "")
    (t1 : nameTokens name1 ≠ ∅) (t2 : nameTokens name2 ≠ ∅) :
    calculate_name_similarity name1 name2 =
      ((nameTokens name1 ∩ nameTokens name2).card : ℚ) /
        ((nameTokens name1 ∪ nameTokens name2).card : ℚ) := by
  have hu : nameTokens name1 ∪ nameTokens name2 ≠ ∅ := by
    intro h
    exact t1 (Finset.union_eq_empty.mp h).1
  simp [calculate_name_similarity, h1, h2, t1, t2, hu]

/-- C10: the Name Similarity Scorer computes the Jaccard index of the
lowercased whitespace-token sets; the result always lies in `[0, 1]`, it is
symmetric, it is 0 whenever either input string is empty, and it equals 1
exactly when the two token sets are equal and non-empty. -/
theorem calculate_name_similarity_props (name1 name2 : String) :
    (0 ≤ calculate_name_similarity name1 name2 ∧
      calculate_name_similarity name1 name2 ≤ 1) ∧
    calculate_name_similarity name1 name2 = calculate_name_similarity name2 name1 ∧
    (name1 = "" ∨ name2 = "" → calculate_name_similarity name1 name2 = 0) ∧
    (calculate_name_similarity name1 name2 = 1 ↔
      nameTokens name1 = nameTokens name2 ∧ nameTokens name1 ≠ ∅) ∧
    (name1 ≠ "" → name2 ≠ "" → nameTokens name1 ≠ ∅ → nameTokens name2 ≠ ∅ →
      calculate_name_similarity name1 name2 =
        ((nameTokens name1 ∩ nameTokens name2).card : ℚ) /
          ((nameTokens name1 ∪ nameTokens name2).card : ℚ)) := by
  by_cases h12 : name1 = "" ∨ name2 = ""
  · have e1 : calculate_name_similarity name1 name2 = 0 := by
      simp [calculate_name_similarity, h12]
    have e2 : calculate_name_similarity name2 name1 = 0 := by
      simp [calculate_name_similarity, h12.symm]
    refine ⟨⟨by rw [e1], by rw [e1]; norm_num⟩, by rw [e1, e2], fun _ => e1, ?_, ?_⟩
    · rw [e1]
      constructor
      · intro h; exact absurd h (by norm_num)
      · rintro ⟨heq, hne⟩
        rcases h12 with h | h
        · exact absurd (h ▸ nameTokens_empty : nameTokens name1 = ∅) hne
        · exact absurd (heq.trans (h ▸ nameTokens_empty)) hne
    · intro h1' h2' _ _
      rcases h12 with h | h
      · exact absurd h h1'
      · exact absurd h h2'
  · push_neg at h12
    obtain ⟨h1, h2⟩ := h12
    by_cases he : nameTokens name1 = ∅ ∨ nameTokens name2 = ∅
    · have e1 : calculate_name_similarity name1 name2 = 0 := by
        simp [calculate_name_similarity, h1, h2, he]
      have e2 : calculate_name_similarity name2 name1 = 0 := by
        simp [calculate_name_similarity, h1, h2, he.symm]
      refine ⟨⟨by rw [e1], by rw [e1]; norm_num⟩, by rw [e1, e2], ?_, ?_, ?_⟩
      · rintro (h | h)
        · exact absurd h h1
        · exact absurd h h2
      · rw [e1]
        constructor
        · intro h; exact absurd h (by norm_num)
        · rintro ⟨heq, hne⟩
          rcases he with h | h
          · exact absurd h hne
          · exact absurd (heq.trans h) hne
      · intro _ _ t1 t2
        rcases he with h | h
        · exact absurd h t1
        · exact absurd h t2
    · push_neg at he
      obtain ⟨t1, t2⟩ := he
      have hs1 : (nameTokens name1).Nonempty := Finset.nonempty_iff_ne_empty.mpr t1
      have hu : (nameTokens name1 ∪ nameTokens name2).Nonempty :=
        hs1.mono Finset.subset_union_left
      have hcpos : 0 < ((nameTokens name1 ∪ nameTokens name2).card : ℚ) := by
        exact_mod_cast Finset.card_pos.mpr hu
      have e1 := calculate_name_similarity_eq_jaccard name1 name2 h1 h2 t1 t2
      have e2 := calculate_name_similarity_eq_jaccard name2 name1 h2 h1 t2 t1
      refine ⟨⟨?_, ?_⟩, ?_, ?_, ?_, fun _ _ _ _ => e1⟩
      · rw [e1]; positivity
      · rw [e1]
        apply div_le_one_of_le₀
        · exact_mod_cast Finset.card_le_card Finset.inter_subset_union
        · positivity
      · rw [e1, e2, Finset.inter_comm, Finset.union_comm]
      · rintro (h | h)
        · exact absurd h h1
        · exact absurd h h2
      · rw [e1, jaccard_eq_one_iff _ _ hs1]
        exact ⟨fun h => ⟨h, t1⟩, fun h => h.1⟩

/-- Witness for C10: the similarity of two concrete names with the same token
set is 1 and the similarity against the empty string is 0. -/
theorem calculate_name_similarity_props_witness :
    calculate_name_similarity "Jane Smith" "smith JANE" = 1 ∧
    calculate_name_similarity "" "Jane" = 0 :=
  ⟨(calculate_name_similarity_props "Jane Smith" "smith JANE").2.2.2.1.mpr
      (by constructor <;> decide),
   (calculate_name_similarity_props "" "Jane").2.2.1 (Or.inl rfl)⟩

/-- C7: the fallback verifier computes
`confidence = 0.7 * name_similarity + 0.3 * location_match` and declares a
match exactly when `confidence > 0.6` and `name_similarity > 0.5`. -/
theorem basic_verification_spec (target_name : String) (scraped : ScrapedData)
    (gy : Option Int) (hint : Option String) :
    (basic_verification target_name scraped gy hint).confidence_score =
      7/10 * calculate_name_similarity target_name (scraped.name.getD "") +
        3/10 * (if basic_location_match hint (scraped.location.getD "")
                then (1 : ℚ) else 0) ∧
    ((basic_verification target_name scraped gy hint).is_match = true ↔
      (basic_verification target_name scraped gy hint).confidence_score > 3/5 ∧
        calculate_name_similarity target_name (scraped.name.getD "") > 1/2) := by
  constructor
  · by_cases h : basic_location_match hint (scraped.location.getD "")
    · simp [basic_verification, h]; ring
    · simp [basic_verification, h]; ring
  · simp only [basic_verification, decide_eq_true_eq]

/-- C6: the scheduler classifies with first-match-wins rule order —
immediate-update when `age_days > 90` or `confidence < 0.3`, else
should-update when `age_days > 30` or `confidence < 0.6`, else can-update
when `age_days > 7`, else no tier; in particular 95 days at confidence 0.9 is
immediate-update and 10 days at confidence 0.95 is can-update. -/
theorem schedule_updates_classification (days_old : Int) (c : ℚ) :
    (schedule_updates_tier days_old c = .immediate ↔
      90 < days_old ∨ c < 3/10) ∧
    (schedule_updates_tier days_old c = .should ↔
      ¬(90 < days_old ∨ c < 3/10) ∧ (30 < days_old ∨ c < 3/5)) ∧
    (schedule_updates_tier days_old c = .can ↔
      ¬(90 < days_old ∨ c < 3/10) ∧ ¬(30 < days_old ∨ c < 3/5) ∧ 7 < days_old) ∧
    (schedule_updates_tier days_old c = .fresh ↔
      ¬(90 < days_old ∨ c < 3/10) ∧ ¬(30 < days_old ∨ c < 3/5) ∧ ¬(7 < days_old)) ∧
    schedule_updates_tier 95 (9/10) = .immediate ∧
    schedule_updates_tier 10 (19/20) = .can := by
  refine ⟨?_, ?_, ?_, ?_, by norm_num [schedule_updates_tier], by norm_num [schedule_updates_tier]⟩ <;>
    unfold schedule_updates_tier <;> split_ifs <;> simp_all

/-- C1: re-acquisition merges take the maximum of the existing and candidate
confidence scores, so confidence never regresses below either input. -/
theorem update_single_profile_confidence_max
    (profile fresh : AlumniProfileM) (now : Int) :
    (update_single_profile_merge profile fresh now).confidence_score =
      max profile.confidence_score fresh.confidence_score ∧
    profile.confidence_score ≤
      (update_single_profile_merge profile fresh now).confidence_score ∧
    fresh.confidence_score ≤
      (update_single_profile_merge profile fresh now).confidence_score := by
  have e : (update_single_profile_merge profile fresh now).confidence_score =
      max profile.confidence_score fresh.confidence_score := by
    unfold update_single_profile_merge update_scalar_fields
    split_ifs <;> rfl
  exact ⟨e, e ▸ le_max_left _ _, e ▸ le_max_right _ _⟩

/-- Helper: inserting into the sorted work history is a permutation. -/
theorem insertJobDesc_perm (j : Job) (l : List Job) :
    List.Perm (insertJobDesc j l) (j :: l) := by
  induction l with
  | nil => exact List.Perm.refl _
  | cons k ks ih =>
    unfold insertJobDesc
    split
    · exact List.Perm.refl _
    · exact (ih.cons k).trans (List.Perm.swap j k ks)

/-- Helper: the work-history sort is a permutation. -/
theorem sortJobsDesc_perm (l : List Job) : List.Perm (sortJobsDesc l) l := by
  induction l with
  | nil => exact List.Perm.refl _
  | cons j js ih => exact (insertJobDesc_perm j (sortJobsDesc js)).trans (ih.cons j)

/-- Helper: sorting preserves the number of current entries. -/
theorem currentCount_sortJobsDesc (l : List Job) :
    currentCount (sortJobsDesc l) = currentCount l :=
  ((sortJobsDesc_perm l).filter _).length_eq

/-- Helper: membership in the sorted history. -/
theorem mem_sortJobsDesc {j : Job} {l : List Job} :
    j ∈ sortJobsDesc l ↔ j ∈ l :=
  (sortJobsDesc_perm l).mem_iff

/-- Helper: clearing the `is_current` flags leaves no current entry. -/
theorem currentCount_clear (l : List Job) :
    currentCount (l.map (fun j => { j with is_current := false })) = 0 := by
  induction l with
  | nil => rfl
  | cons k ks ih =>
    simp only [currentCount, List.map_cons, List.filter] at ih ⊢
    exact ih

/-- Helper: `currentCount` distributes over append. -/
theorem currentCount_append (l₁ l₂ : List Job) :
    currentCount (l₁ ++ l₂) = currentCount l₁ + currentCount l₂ := by
  simp [currentCount, List.filter_append]

/-- Helper: the shape of `add_job_position` for a current position. -/
theorem add_job_position_eq_true (p : AlumniProfileM) (position : Job)
    (hc : position.is_current = true) :
    add_job_position p position =
      { p with
        work_history := sortJobsDesc
          (p.work_history.map (fun j => { j with is_current := false }) ++ [position])
        current_position := some position } := by
  simp [add_job_position, hc]

/-- Helper: the shape of `add_job_position` for a non-current position. -/
theorem add_job_position_eq_false (p : AlumniProfileM) (position : Job)
    (hc : position.is_current = false) :
    add_job_position p position =
      { p with work_history := sortJobsDesc (p.work_history ++ [position]) } := by
  simp [add_job_position, hc]

/-- Helper: one `add_job_position` step preserves the work-history
invariant. -/
theorem add_job_position_inv (p : AlumniProfileM) (position : Job)
    (h : work_history_inv p) : work_history_inv (add_job_position p position) := by
  obtain ⟨hcount, hcur⟩ := h
  by_cases hc : position.is_current
  · rw [add_job_position_eq_true p position hc]
    constructor
    · show currentCount (sortJobsDesc _) ≤ 1
      rw [currentCount_sortJobsDesc, currentCount_append, currentCount_clear]
      simp [currentCount, List.filter, hc]
    · intro j hj _
      show some position = some j
      simp only at hj
      rw [mem_sortJobsDesc] at hj
      rcases List.mem_append.mp hj with hj | hj
      · obtain ⟨k, _, rfl⟩ := List.mem_map.mp hj
        simp_all
      · rw [List.mem_singleton.mp hj]
  · rw [add_job_position_eq_false p position (by simpa using hc)]
    constructor
    · show currentCount (sortJobsDesc _) ≤ 1
      rw [currentCount_sortJobsDesc, currentCount_append]
      have h0 : currentCount [position] = 0 := by
        simp [currentCount, List.filter, hc]
      omega
    · intro j hj hjc
      show p.current_position = some j
      simp only at hj
      rw [mem_sortJobsDesc] at hj
      rcases List.mem_append.mp hj with hj | hj
      · exact hcur j hj hjc
      · rw [List.mem_singleton.mp hj] at hjc
        exact absurd hjc (by simpa using hc)

/-- Helper: the work fields of the merge when the candidate brings a
non-empty work history. -/
theorem update_merge_work_nonempty (profile fresh : AlumniProfileM) (now : Int)
    (hw : fresh.work_history ≠ []) :
    (update_single_profile_merge profile fresh now).work_history =
      fresh.work_history ∧
    (update_single_profile_merge profile fresh now).current_position =
      (if fresh.current_position.isSome then fresh.current_position
       else profile.current_position) := by
  simp [update_single_profile_merge, update_scalar_fields, hw]

/-- Helper: the work fields of the merge when the candidate brings no work
history. -/
theorem update_merge_work_empty (profile fresh : AlumniProfileM) (now : Int)
    (hw : fresh.work_history = []) :
    (update_single_profile_merge profile fresh now).work_history =
      profile.work_history ∧
    (update_single_profile_merge profile fresh now).current_position =
      profile.current_position := by
  simp [update_single_profile_merge, update_scalar_fields, hw]

/-- C3: after any merge — building a profile's history with
`add_job_position` starting from an empty history (the creation path of
`convert_web_data_to_profile`) or replacing the history in
`update_single_profile` — at most one work-history entry is current and the
cached current position equals that entry. -/
theorem merge_work_history_invariant :
    (∀ p : AlumniProfileM, p.work_history = [] → work_history_inv p) ∧
    (∀ (base : AlumniProfileM) (jobs : List Job), work_history_inv base →
      work_history_inv (jobs.foldl add_job_position base)) ∧
    (∀ (profile fresh : AlumniProfileM) (now : Int), work_history_inv profile →
      work_history_inv fresh →
      work_history_inv (update_single_profile_merge profile fresh now)) := by
  refine ⟨?_, ?_, ?_⟩
  · intro p hp
    exact ⟨by simp [currentCount, hp], by simp [hp]⟩
  · intro base jobs
    induction jobs generalizing base with
    | nil => exact fun h => h
    | cons j js ih => exact fun h => ih _ (add_job_position_inv base j h)
  · intro profile fresh now hp hf
    obtain ⟨hfc, hfcur⟩ := hf
    obtain ⟨hpc, hpcur⟩ := hp
    by_cases hw : fresh.work_history = []
    · obtain ⟨ew, ec⟩ := update_merge_work_empty profile fresh now hw
      exact ⟨ew ▸ hpc, fun j hj hjc => ec ▸ hpcur j (ew ▸ hj) hjc⟩
    · obtain ⟨ew, ec⟩ := update_merge_work_nonempty profile fresh now hw
      refine ⟨ew ▸ hfc, fun j hj hjc => ?_⟩
      rw [ew] at hj
      have hcur := hfcur j hj hjc
      rw [ec, hcur]
      simp [hcur]

/-- Witness for C3 at concrete profiles: a fold adding a current and a
past job, and a merge replacing a history. -/
theorem merge_work_history_invariant_witness :
    work_history_inv
      (([{ title := "Engineer", company := "Acme", is_current := true },
         { title := "Analyst", company := "初創", start_date := some 2015 }] :
            List Job).foldl add_job_position { full_name := "Jane Smith" }) ∧
    work_history_inv
      (update_single_profile_merge
        { full_name := "Jane Smith",
          work_history := [{ title := "Analyst", company := "Old", is_current := true }],
          current_position := some { title := "Analyst", company := "Old", is_current := true } }
        { full_name := "Jane Smith",
          work_history := [{ title := "Engineer", company := "Acme", is_current := true }],
          current_position := some { title := "Engineer", company := "Acme", is_current := true } }
        100) :=
  ⟨merge_work_history_invariant.2.1 { full_name := "Jane Smith" } _ (by decide),
   merge_work_history_invariant.2.2 _ _ 100 (by decide) (by decide)⟩

/-- C9 counterexample: a candidate whose location is the non-null empty
string does not overwrite the existing location, contradicting the claim
that a scalar field is overwritten whenever the candidate's value is
non-null. -/
theorem update_scalar_fields_counterexample :
    ({ full_name := "Jane Smith", location := some "" } : AlumniProfileM).location ≠ none ∧
    (update_scalar_fields { full_name := "Jane Smith", location := some "Perth" }
        { full_name := "Jane Smith", location := some "" } 100).location ≠ some "" ∧
    (update_scalar_fields { full_name := "Jane Smith", location := some "Perth" }
        { full_name := "Jane Smith", location := some "" } 100).location = some "Perth" := by
  refine ⟨by simp, ?_, ?_⟩ <;> simp [update_scalar_fields, pyOrS, pyTruthyStr]

/-- C9 (amended): in the scalar-merge step each scalar field (location,
industry, professional URL) is overwritten exactly when the candidate's value
is truthy — non-null and non-empty — and left unchanged otherwise;
last_updated is always set to the acquisition time; every other stored field
is unchanged. -/
theorem update_scalar_fields_frame (profile fresh : AlumniProfileM) (now : Int) :
    (pyTruthyStr fresh.location = true →
      (update_scalar_fields profile fresh now).location = fresh.location) ∧
    (pyTruthyStr fresh.location = false →
      (update_scalar_fields profile fresh now).location = profile.location) ∧
    (pyTruthyStr fresh.industry = true →
      (update_scalar_fields profile fresh now).industry = fresh.industry) ∧
    (pyTruthyStr fresh.industry = false →
      (update_scalar_fields profile fresh now).industry = profile.industry) ∧
    (pyTruthyStr fresh.linkedin_url = true →
      (update_scalar_fields profile fresh now).linkedin_url = fresh.linkedin_url) ∧
    (pyTruthyStr fresh.linkedin_url = false →
      (update_scalar_fields profile fresh now).linkedin_url = profile.linkedin_url) ∧
    (update_scalar_fields profile fresh now).last_updated = now ∧
    (update_scalar_fields profile fresh now).full_name = profile.full_name ∧
    (update_scalar_fields profile fresh now).id = profile.id ∧
    (update_scalar_fields profile fresh now).graduation_year = profile.graduation_year ∧
    (update_scalar_fields profile fresh now).current_position = profile.current_position ∧
    (update_scalar_fields profile fresh now).work_history = profile.work_history ∧
    (update_scalar_fields profile fresh now).education_history = profile.education_history ∧
    (update_scalar_fields profile fresh now).confidence_score = profile.confidence_score ∧
    (update_scalar_fields profile fresh now).data_sources = profile.data_sources := by
  refine ⟨?_, ?_, ?_, ?_, ?_, ?_, rfl, rfl, rfl, rfl, rfl, rfl, rfl, rfl, rfl⟩ <;>
    intro h <;> simp [update_scalar_fields, pyOrS, h]

/-- Helper: a `web-research` data source fails construction exactly when its
confidence is outside `[0, 1]`. -/
theorem mkDataSource_web_research (url : Option String) (c : ℚ) :
    mkDataSource "web-research" url c = none ↔ ¬(0 ≤ c ∧ c ≤ 1) := by
  unfold mkDataSource
  rw [if_neg (by decide)]
  split_ifs with h <;> simp [h]

/-- Helper: the data-source step fails exactly when a source URL is truthy
and the (non-negative) confidence exceeds 1. -/
theorem buildDataSources_eq_none_iff (pd : ProfileData) (c : ℚ) (h0 : 0 ≤ c) :
    (buildDataSources pd c = none ↔
      pyTruthyStr pd.data_source_url = true ∧ 1 < c) := by
  unfold buildDataSources
  split_ifs with h
  · rw [Option.map_eq_none', mkDataSource_web_research]
    constructor
    · intro hc
      refine ⟨h, ?_⟩
      by_contra hle
      exact hc ⟨h0, not_lt.mp hle⟩
    · rintro ⟨_, h1⟩ ⟨_, hle⟩
      exact absurd h1 (not_lt.mpr hle)
  · simp [h]

/-- Helper: the `AlumniProfile` constructor fails exactly on a short name, a
truthy out-of-range graduation year, or an out-of-range confidence. -/
theorem mkAlumniProfile_eq_none_iff (n : String) (g : Option Int)
    (loc ind url : Option String) (c : ℚ) (ds : List DataSourceM) (y : Int) :
    (mkAlumniProfile n g loc ind url c ds y = none ↔
      (n = "" ∨ (pyStrip n).length < 2) ∨
      (pyTruthyInt g = true ∧ ¬(1950 ≤ g.getD 0 ∧ g.getD 0 ≤ y + 5)) ∨
      ¬(0 ≤ c ∧ c ≤ 1)) := by
  unfold mkAlumniProfile
  split_ifs with h1 h2 h3 <;> simp_all

/-- Helper: the conversion tail returns `none` exactly when the data-source
step or the profile constructor fails, given a confidence at least 0.5 and a
truthy full name. -/
theorem convertCore_eq_none_iff (y : Int) (t : String) (pd : ProfileData)
    (hconf : ¬ normalize_confidence pd.confidence_score < 1/2)
    (hn : pyTruthyStr pd.full_name = true) :
    (convertCore y t pd = none ↔
      1 < normalize_confidence pd.confidence_score ∨
      (pyStrip (pd.full_name.getD t)).length < 2 ∨
      (pyTruthyInt pd.graduation_year = true ∧
        ¬(1950 ≤ pd.graduation_year.getD 0 ∧
          pd.graduation_year.getD 0 ≤ y + 5))) := by
  have h0 : (0:ℚ) ≤ normalize_confidence pd.confidence_score :=
    le_trans (by norm_num) (not_lt.mp hconf)
  have hne : pd.full_name.getD t ≠ "" := by
    cases hf : pd.full_name with
    | none => rw [hf] at hn; exact absurd hn (by simp [pyTruthyStr])
    | some s =>
      rw [hf] at hn
      simp only [pyTruthyStr, Bool.not_eq_true', beq_eq_false_iff_ne, ne_eq] at hn
      simpa using hn
  simp only [convertCore]
  by_cases hb : 1 < normalize_confidence pd.confidence_score
  · rcases hds : buildDataSources pd (normalize_confidence pd.confidence_score)
        with _ | ds
    · simp [hb]
    · rw [Option.some_bind, Option.map_eq_none', mkAlumniProfile_eq_none_iff]
      have : ¬((0:ℚ) ≤ normalize_confidence pd.confidence_score ∧
          normalize_confidence pd.confidence_score ≤ 1) := by
        rintro ⟨_, hle⟩
        exact absurd hb (not_lt.mpr hle)
      simp [this, hb]
  · have hc1 : normalize_confidence pd.confidence_score ≤ 1 := not_lt.mp hb
    rcases hds : buildDataSources pd (normalize_confidence pd.confidence_score)
        with _ | ds
    · exfalso
      rw [buildDataSources_eq_none_iff pd _ h0] at hds
      exact absurd hds.2 hb
    · rw [Option.some_bind, Option.map_eq_none', mkAlumniProfile_eq_none_iff]
      constructor
      · rintro ((h | h) | h | h)
        · exact absurd h hne
        · exact Or.inr (Or.inl h)
        · exact Or.inr (Or.inr h)
        · exact absurd ⟨h0, hc1⟩ h
      · rintro (h | h | h)
        · exact absurd h hb
        · exact Or.inl (Or.inr h)
        · exact Or.inr (Or.inl h)

/-- C4 counterexample: a parsed result whose full_name is the 1-character
string "X" with confidence 0.9 satisfies none of the stated discard
conditions (client available, parse succeeded, confidence at least 0.5,
full_name present), yet the extractor returns no candidate — the
`AlumniProfile` constructor rejects a name shorter than 2 characters and the
outer handler swallows the error. -/
theorem convert_web_data_counterexample :
    convert_web_data_to_profile true 2025 "X Smith" (some pdShortName) = none ∧
    pyTruthyStr pdShortName.full_name = true ∧
    ¬ normalize_confidence pdShortName.confidence_score < 1/2 := by
  have hn : pyTruthyStr pdShortName.full_name = true := rfl
  have hc : ¬ normalize_confidence pdShortName.confidence_score < 1/2 := by
    norm_num [normalize_confidence, pdShortName]
  refine ⟨?_, hn, hc⟩
  simp only [convert_web_data_to_profile]
  rw [if_neg (by simp), if_neg (by simp [hasMeaningful, pdShortName, pyTruthyStr]),
    if_neg hc, if_neg (by simp [hn]), convertCore_eq_none_iff _ _ _ hc hn]
  right; left
  decide

/-- C4 (amended): the extractor never raises, and it returns no candidate
(`none`) exactly when the extraction call is unavailable, the response fails
to parse as the expected JSON structure, the normalized confidence is below
the 0.5 acceptance floor, the parsed result lacks a truthy full_name, or the
final profile construction fails validation — normalized confidence above 1,
full_name shorter than 2 characters after trimming, or a truthy graduation
year outside `[1950, current_year + 5]`. -/
theorem convert_web_data_discard_semantics (clientAvailable : Bool)
    (currentYear : Int) (target_name : String) (pd : ProfileData) :
    convert_web_data_to_profile clientAvailable currentYear target_name none = none ∧
    (convert_web_data_to_profile clientAvailable currentYear target_name (some pd) = none ↔
      clientAvailable = false ∨
      normalize_confidence pd.confidence_score < 1/2 ∨
      pyTruthyStr pd.full_name = false ∨
      1 < normalize_confidence pd.confidence_score ∨
      (pyStrip (pd.full_name.getD target_name)).length < 2 ∨
      (pyTruthyInt pd.graduation_year = true ∧
        ¬(1950 ≤ pd.graduation_year.getD 0 ∧
          pd.graduation_year.getD 0 ≤ currentYear + 5))) := by
  constructor
  · cases clientAvailable <;> rfl
  · cases clientAvailable with
    | false => simp [convert_web_data_to_profile]
    | true =>
      simp only [convert_web_data_to_profile]
      rw [if_neg (by simp)]
      by_cases hm : hasMeaningful pd
      · rw [if_neg (by simp [hm])]
        by_cases hc : normalize_confidence pd.confidence_score < 1/2
        · rw [if_pos hc]
          exact ⟨fun _ => Or.inr (Or.inl hc), fun _ => rfl⟩
        · rw [if_neg hc]
          by_cases hn : pyTruthyStr pd.full_name
          · rw [if_neg (by simp [hn]), convertCore_eq_none_iff _ _ _ hc hn]
            simp [hn, hc]
            intro h
            exact absurd (show normalize_confidence pd.confidence_score < 1/2 by
              linarith) hc
          · rw [if_pos (by simpa using hn)]
            simp only [Bool.not_eq_true] at hn
            simp [hn]
      · rw [if_pos (by simpa using hm)]
        have hm' : ¬ hasMeaningful pd = true := hm
        simp only [hasMeaningful, Bool.or_eq_true, not_or] at hm'
        obtain ⟨⟨⟨⟨⟨h1, _⟩, _⟩, _⟩, _⟩, _⟩ := hm'
        simp only [Bool.not_eq_true] at h1
        simp [h1]

/-- C8: the per-name loop of `collect_web_research` is failure-isolated — the
head name's outcome never affects the processing of the remaining names —
but the batch call returns only the accepted profiles: at the concrete batch
where the second name yields no search results, the result is exactly the
first profile and contains no record of the failed name, not the
successful_profiles/failed_names object with {name, reason} entries that its
caller `run_collection_task` expects. -/
theorem collect_web_research_no_failure_list :
    (∀ (a : String) (names : List String) (outcome : String → NameOutcome),
      collect_web_research (a :: names) outcome =
        (match outcome a with
         | .saved p => [p]
         | _ => []) ++ collect_web_research names outcome) ∧
    collect_web_research ["Jane Smith", "UnknownPerson9999"]
        (fun n => if n = "Jane Smith" then .saved janeProfile
                  else .noWebResults) = [janeProfile] ∧
    ∀ p ∈ collect_web_research ["Jane Smith", "UnknownPerson9999"]
        (fun n => if n = "Jane Smith" then .saved janeProfile
                  else .noWebResults), p.full_name ≠ "UnknownPerson9999" := by
  refine ⟨?_, ?_, ?_⟩
  · intro a names outcome
    cases h : outcome a <;> simp [collect_web_research, h]
  · rfl
  · intro p hp
    rw [show collect_web_research ["Jane Smith", "UnknownPerson9999"]
        (fun n => if n = "Jane Smith" then .saved janeProfile
                  else .noWebResults) = [janeProfile] from rfl] at hp
    rw [List.mem_singleton.mp hp]
    simp [janeProfile]

/-- Witness for C8: the only member of the concrete batch result is Jane's
profile, which does not carry the failed name. -/
theorem collect_web_research_no_failure_list_witness :
    janeProfile.full_name ≠ "UnknownPerson9999" :=
  collect_web_research_no_failure_list.2.2 janeProfile (by
    rw [collect_web_research_no_failure_list.2.1]
    exact List.mem_singleton.mpr rfl)

/-- Witness for C9 at concrete profiles with one truthy and one falsy
candidate field. -/
theorem update_scalar_fields_frame_witness :
    (update_scalar_fields { full_name := "Jane Smith", location := some "Perth" }
        { full_name := "Jane Smith", industry := some "Technology" } 100).industry =
      some "Technology" ∧
    (update_scalar_fields { full_name := "Jane Smith", location := some "Perth" }
        { full_name := "Jane Smith", industry := some "Technology" } 100).location =
      some "Perth" :=
  ⟨(update_scalar_fields_frame { full_name := "Jane Smith", location := some "Perth" }
      { full_name := "Jane Smith", industry := some "Technology" } 100).2.2.1 (by decide),
   (update_scalar_fields_frame { full_name := "Jane Smith", location := some "Perth" }
      { full_name := "Jane Smith", industry := some "Technology" } 100).2.1 (by decide)⟩

end AlumniSystem
